import Mathlib

/-
Verification of the Twilio phone-call webhook service (src/phone.ts).

The development shallowly embeds the call-handling module: the two
in-memory maps (callSessions and pendingResponses), the webhook handlers
(handleInbound, handleRecordingResponse, handlePoll, handleStatus), the
background pipeline (processRecordingAsync together with the .catch
handler attached at its spawn site), the stale-session sweep, and the
TwiML builders from twiml.ts.  JS Maps are embedded as association
lists with JS Map semantics (set replaces in place or appends, delete
removes, get returns the first binding).  Fallible external
collaborators (fetch, transcribe, saveMessage, callClaude,
processMemoryIntents, context lookups) are modelled by an environment
of Except-valued results, error meaning the awaited call threw.
-/

namespace PhoneSvc

/-- Apostrophe character, used to build string literals faithfully. -/
def apos : Char := Char.ofNat 39

/-- Apostrophe as a one-character string. -/
def aposS : String := String.mk [apos]

/-- Double-quote character. -/
def quoteChar : Char := Char.ofNat 34

-- ============================================================
-- JS Map embedding: association lists with Map semantics
-- ============================================================

/-- Map.get: first binding for the key, none when absent. -/
def mapGet {α : Type} : List (String × α) → String → Option α
  | [], _ => none
  | (k0, v0) :: rest, k => if k0 = k then some v0 else mapGet rest k

/-- Map.set: replace the existing binding in place, else append. -/
def mapSet {α : Type} : List (String × α) → String → α → List (String × α)
  | [], k, v => [(k, v)]
  | (k0, v0) :: rest, k, v =>
      if k0 = k then (k, v) :: rest else (k0, v0) :: mapSet rest k v

/-- Map.delete: remove the binding for the key. -/
def mapDelete {α : Type} : List (String × α) → String → List (String × α)
  | [], _ => []
  | (k0, v0) :: rest, k =>
      if k0 = k then mapDelete rest k else (k0, v0) :: mapDelete rest k

-- ============================================================
-- Data model
-- ============================================================

/-- interface CallSession (turns, lastActivity). -/
structure CallSession where
  turns : Nat
  lastActivity : Nat
deriving Repr, DecidableEq

abbrev SessionMap := List (String × CallSession)

abbrev PendingMap := List (String × Option String)

/-- The two module-level maps of phone.ts. -/
structure PhoneState where
  callSessions : SessionMap
  pendingResponses : PendingMap
deriving Repr, DecidableEq

/-- Environment-driven configuration used by the handlers. -/
structure Config where
  userPhoneNumber : String
  baseUrl : String
deriving Repr, DecidableEq

/-- Arguments of one spawned processRecordingAsync task. -/
structure SpawnRequest where
  callSid : String
  recordingUrl : String
  recordingSid : String
deriving Repr, DecidableEq

-- ============================================================
-- TwiML builders (twiml.ts) and URI encoding
-- ============================================================

/-- escapeXml, per character: the five XML entities of twiml.ts. -/
def escapeXmlChar (c : Char) : String :=
  if c = '&' then ("&amp;")
  else if c = '<' then ("&lt;")
  else if c = '>' then ("&gt;")
  else if c = quoteChar then ("&quot;")
  else if c = apos then ("&apos;")
  else String.mk [c]

/-- escapeXml from twiml.ts (the sequential global replaces are
character-wise since no replacement output is itself replaced later). -/
def escapeXml (t : String) : String :=
  String.join (t.data.map escapeXmlChar)

/-- Uppercase hexadecimal digit. -/
def hexDigit (n : Nat) : Char :=
  if n < 10 then Char.ofNat (48 + n) else Char.ofNat (55 + n)

/-- One percent-encoded byte, as in encodeURIComponent. -/
def percentEncodeByte (b : Nat) : String :=
  String.mk [Char.ofNat 37, hexDigit (b / 16), hexDigit (b % 16)]

/-- UTF-8 bytes of a character. -/
def utf8Bytes (c : Char) : List Nat :=
  let n := c.toNat
  if n < 128 then [n]
  else if n < 2048 then [192 + n / 64, 128 + n % 64]
  else if n < 65536 then [224 + n / 4096, 128 + (n / 64) % 64, 128 + n % 64]
  else [240 + n / 262144, 128 + (n / 4096) % 64, 128 + (n / 64) % 64, 128 + n % 64]

/-- Characters encodeURIComponent leaves unescaped besides alphanumerics:
hyphen, underscore, dot, bang, tilde, star, apostrophe, parentheses. -/
def uriUnreservedExtra : List Char :=
  [Char.ofNat 45, Char.ofNat 95, Char.ofNat 46, Char.ofNat 33,
   Char.ofNat 126, Char.ofNat 42, apos, Char.ofNat 40, Char.ofNat 41]

/-- encodeURIComponent on a single character. -/
def encodeURIComponentChar (c : Char) : String :=
  if c.isAlpha || c.isDigit || uriUnreservedExtra.contains c then String.mk [c]
  else String.join ((utf8Bytes c).map percentEncodeByte)

/-- JavaScript encodeURIComponent. -/
def encodeURIComponent (s : String) : String :=
  String.join (s.data.map encodeURIComponentChar)

/-- XML header plus the opening Say element shared by the builders. -/
def sayOpen : String :=
  "<?xml version=\"1.0\" encoding=\"UTF-8\"?>\n<Response>\n  <Say voice=\"Polly.Emma-Generative\">"

/-- Closing of sayAndHangup: just end the Say and the Response. -/
def sayHangupSuf : String := "</Say>\n</Response>"

/-- sayAndHangup from twiml.ts. -/
def sayAndHangup (text : String) : String :=
  sayOpen ++ escapeXml text ++ sayHangupSuf

/-- The Record element and fallback Say of sayAndRecord. -/
def sayRecordMid (actionUrl : String) : String :=
  "</Say>\n  <Record\n    action=\"" ++ escapeXml actionUrl ++
  "\"\n    maxLength=\"120\"\n    playBeep=\"false\"\n    trim=\"trim-silence\"\n    timeout=\"3\"\n  />\n  <Say voice=\"Polly.Emma-Generative\">I didn" ++
  aposS ++ "t hear anything. Talk to you later!</Say>\n</Response>"

/-- sayAndRecord from twiml.ts. -/
def sayAndRecord (text actionUrl : String) : String :=
  sayOpen ++ escapeXml text ++ sayRecordMid actionUrl

/-- Opening line the greeting speaks. -/
def greetingMsg : String := "Hey! What can I help with?"

/-- greeting from twiml.ts. -/
def greeting (actionUrl : String) : String :=
  sayAndRecord greetingMsg actionUrl

/-- Up to the callSid parameter of the thinkingAndPoll markup. -/
def thinkingPre (cfg : Config) : String :=
  "<?xml version=\"1.0\" encoding=\"UTF-8\"?>\n<Response>\n  <Pause length=\"1\"/>\n  <Redirect method=\"POST\">" ++
  cfg.baseUrl ++ "/voice/poll?callSid="

/-- Closing of the Pause-and-Redirect markups. -/
def pollWaitSuf : String := "</Redirect>\n</Response>"

/-- thinkingAndPoll from phone.ts: Pause 1s then Redirect to the poll route. -/
def thinkingAndPoll (cfg : Config) (callSid : String) : String :=
  thinkingPre cfg ++ encodeURIComponent callSid ++ pollWaitSuf

/-- Up to the callSid parameter of the poll-wait markup. -/
def pollWaitPre (cfg : Config) : String :=
  "<?xml version=\"1.0\" encoding=\"UTF-8\"?>\n<Response>\n  <Pause length=\"2\"/>\n  <Redirect method=\"POST\">" ++
  cfg.baseUrl ++ "/voice/poll?callSid="

/-- The still-processing markup of handlePoll: Pause 2s then Redirect back
to the same poll route carrying the call id (the self-loop). -/
def pollWaitTwiml (cfg : Config) (callSid : String) : String :=
  pollWaitPre cfg ++ encodeURIComponent callSid ++ pollWaitSuf

-- ============================================================
-- Goodbye-intent detection (the fixed English regex)
-- ============================================================

/-- Regex word character: letters, digits, underscore. -/
def isWordChar (c : Char) : Bool :=
  c.isAlpha || c.isDigit || c = Char.ofNat 95

/-- The pattern matches here as a whole prefix, with a word boundary
after it (all phrases end in a word character, so the boundary demands
end of input or a non-word character next). -/
def matchEnd : List Char → List Char → Bool
  | [], [] => true
  | [], c :: _ => !(isWordChar c)
  | _ :: _, [] => false
  | p :: ps, c :: cs => p == c && matchEnd ps cs

/-- Scan the text for a whole-word occurrence of the pattern, tracking
whether the previous character was a word character (all phrases start
with a word character, so the boundary before demands a non-word
predecessor or the start of the text). -/
def scanMatch (pat : List Char) : List Char → Bool → Bool
  | [], _ => false
  | c :: cs, prevIsWord =>
      (!prevIsWord && matchEnd pat (c :: cs)) || scanMatch pat cs (isWordChar c)

/-- ASCII lowercasing of a string, character by character. -/
def toLowerStr (s : String) : String :=
  String.mk (s.data.map Char.toLower)

/-- Whole-word match of a pattern in a text. -/
def matchWholeWord (pat s : String) : Bool :=
  scanMatch pat.data s.data false

/-- The closed phrase set of the end-of-call regex in phone.ts. -/
def goodbyePhrases : List String :=
  [("goodbye"), ("bye"), ("hang up"), ("end call"), ("that" ++ aposS ++ "s all")]

/-- The test of the case-insensitive whole-word goodbye regex of
processRecordingAsync against a transcription. -/
def goodbyeIntent (transcription : String) : Bool :=
  goodbyePhrases.any
    (fun p => matchWholeWord (toLowerStr p) (toLowerStr transcription))

-- ============================================================
-- Fixed spoken strings of phone.ts
-- ============================================================

/-- Rejection message for unauthorized callers. -/
def privateMsg : String := "Sorry, this number is private."

/-- Hangup message when the webhook carries no recording URL. -/
def didNotCatchMsg : String :=
  "I didn" ++ aposS ++ "t catch that. Talk to you later!"

/-- Published result when the recording download is not ok. -/
def couldNotHearMsg : String :=
  "Sorry, I couldn" ++ aposS ++ "t hear that properly. Could you say that again?"

/-- Published result when the transcription is empty. -/
def couldNotUnderstandMsg : String :=
  "Sorry, I couldn" ++ aposS ++ "t understand that. Could you repeat?"

/-- Published result when the detached pipeline task threw. -/
def hiccupMsg : String := "Sorry, I had a hiccup. What were you saying?"

/-- Tag marking a published result as terminal. -/
def goodbyeTag : String := "GOODBYE:"

/-- Published result of the goodbye branch, tagged terminal. -/
def farewellMsg : String := goodbyeTag ++ "Alright, talk to you later! Bye!"

-- ============================================================
-- Webhook handlers
-- ============================================================

/-- handleInbound from phone.ts: authorization check against the
configured allow-listed address, then session creation and greeting. -/
def handleInbound (cfg : Config) (s : PhoneState) (callSid fromAddr : String)
    (now : Nat) : PhoneState × String :=
  if cfg.userPhoneNumber ≠ "" ∧ fromAddr ≠ cfg.userPhoneNumber then
    (s, sayAndHangup privateMsg)
  else
    ({ s with callSessions := mapSet s.callSessions callSid ⟨0, now⟩ },
     greeting (cfg.baseUrl ++ "/voice/respond"))

/-- Result of handleRecordingResponse: new state, spawned background
tasks, and the returned TwiML. -/
structure RecordingOutcome where
  state : PhoneState
  spawns : List SpawnRequest
  twiml : String
deriving Repr, DecidableEq

/-- handleRecordingResponse from phone.ts: reject a missing recording
URL with a hangup; otherwise bump the session, mark the call as
processing (pendingResponses gets null), spawn processRecordingAsync
without awaiting it, and return the thinking-and-poll markup. -/
def handleRecordingResponse (cfg : Config) (s : PhoneState)
    (callSid recordingUrl recordingSid : String) (now : Nat) : RecordingOutcome :=
  if recordingUrl = "" then
    ⟨s, [], sayAndHangup didNotCatchMsg⟩
  else
    let sessions :=
      match mapGet s.callSessions callSid with
      | some ses => mapSet s.callSessions callSid ⟨ses.turns + 1, now⟩
      | none => s.callSessions
    ⟨⟨sessions, mapSet s.pendingResponses callSid none⟩,
     [⟨callSid, recordingUrl, recordingSid⟩],
     thinkingAndPoll cfg callSid⟩

/-- Result of handlePoll: the pendingResponses map and the TwiML. -/
structure PollResult where
  pending : PendingMap
  twiml : String
deriving Repr, DecidableEq

/-- handlePoll from phone.ts: while the entry is absent or still null,
pause and redirect back to the poll route; once a string is ready,
delete the entry and deliver hangup markup (GOODBYE tag) or
speak-then-record markup. -/
def handlePoll (cfg : Config) (pending : PendingMap) (callSid : String) : PollResult :=
  match mapGet pending callSid with
  | none => ⟨pending, pollWaitTwiml cfg callSid⟩
  | some none => ⟨pending, pollWaitTwiml cfg callSid⟩
  | some (some response) =>
      let pending1 := mapDelete pending callSid
      if response.startsWith goodbyeTag then
        ⟨pending1, sayAndHangup (response.drop goodbyeTag.length)⟩
      else
        ⟨pending1, sayAndRecord response (cfg.baseUrl ++ "/voice/respond")⟩

/-- handleStatus from phone.ts: on completed, failed or no-answer delete
the call session; always answer OK. -/
def handleStatus (s : PhoneState) (callSid status : String) : PhoneState × String :=
  if status = "completed" ∨ status = "failed" ∨ status = "no-answer" then
    ({ s with callSessions := mapDelete s.callSessions callSid }, "OK")
  else
    (s, "OK")

-- ============================================================
-- Background pipeline (processRecordingAsync and its .catch)
-- ============================================================

/-- Results of the awaited external collaborators during one pipeline
run; error means the awaited call threw. -/
structure PipelineEnv where
  fetchRes : Except Unit Bool
  transcribeRes : Except Unit String
  saveUserRes : Except Unit Unit
  saveFarewellRes : Except Unit Unit
  contextRes : Except Unit Unit
  claudeRes : Except Unit String
  postFilterRes : String → Except Unit String
  saveAssistantRes : Except Unit Unit

/-- processRecordingAsync from phone.ts: fetch the recording, publish a
fallback on a non-ok download; transcribe, publish a fallback on empty
text; on goodbye intent publish the tagged farewell; otherwise gather
context, call the model, post-filter, and publish the reply.  An
uncaught throw surfaces as error. -/
def processRecordingAsync (env : PipelineEnv) (callSid : String)
    (pending : PendingMap) : Except Unit PendingMap :=
  match env.fetchRes with
  | .error e => .error e
  | .ok fetchOk =>
    if !fetchOk then .ok (mapSet pending callSid (some couldNotHearMsg))
    else
      match env.transcribeRes with
      | .error e => .error e
      | .ok transcription =>
        if transcription = "" then
          .ok (mapSet pending callSid (some couldNotUnderstandMsg))
        else
          match env.saveUserRes with
          | .error e => .error e
          | .ok _ =>
            if goodbyeIntent transcription then
              match env.saveFarewellRes with
              | .error e => .error e
              | .ok _ => .ok (mapSet pending callSid (some farewellMsg))
            else
              match env.contextRes with
              | .error e => .error e
              | .ok _ =>
                match env.claudeRes with
                | .error e => .error e
                | .ok rawResponse =>
                  match env.postFilterRes rawResponse with
                  | .error e => .error e
                  | .ok response =>
                    match env.saveAssistantRes with
                    | .error e => .error e
                    | .ok _ => .ok (mapSet pending callSid (some response))

/-- The spawned task together with the .catch handler attached at the
spawn site in handleRecordingResponse: a throw anywhere in the pipeline
publishes the hiccup fallback. -/
def runPipelineTask (env : PipelineEnv) (callSid : String)
    (pending : PendingMap) : PendingMap :=
  match processRecordingAsync env callSid pending with
  | .ok p => p
  | .error _ => mapSet pending callSid (some hiccupMsg)

-- ============================================================
-- Stale-session sweep (the 5-minute interval timer)
-- ============================================================

/-- Session TTL: 30 minutes in milliseconds. -/
def ttlMs : Nat := 30 * 60 * 1000

/-- Staleness test of the timer body for one session. -/
def staleB (now : Nat) (ses : CallSession) : Bool :=
  decide (now - ses.lastActivity > ttlMs)

/-- Loop of the timer body over the entries of callSessions, deleting
stale sessions and their pending-result entries. -/
def sweepLoop (now : Nat) : List (String × CallSession) → PhoneState → PhoneState
  | [], s => s
  | (sid, ses) :: rest, s =>
      if staleB now ses then
        sweepLoop now rest
          ⟨mapDelete s.callSessions sid, mapDelete s.pendingResponses sid⟩
      else
        sweepLoop now rest s

/-- One run of the cleanup timer of phone.ts. -/
def sweep (now : Nat) (s : PhoneState) : PhoneState :=
  sweepLoop now s.callSessions s

/-- Whether the state holds a stale session for the id. -/
def isStale (now : Nat) (s : PhoneState) (sid : String) : Bool :=
  match mapGet s.callSessions sid with
  | some ses => staleB now ses
  | none => false

-- ============================================================
-- Concrete instances used in witnesses and counterexamples
-- ============================================================

/-- A configuration with an allow-listed caller address. -/
def cfgW : Config := ⟨("+441234567890"), ("http://phone.example")⟩

/-- A configuration with no allow-listed caller address. -/
def cfgOpen : Config := ⟨(""), ("http://phone.example")⟩

/-- The empty state. -/
def stEmpty : PhoneState := ⟨[], []⟩

/-- A pipeline environment in which every collaborator succeeds and the
post-filtered model reply is a fixed string. -/
def envNormal : PipelineEnv :=
  ⟨.ok true, .ok ("hello"), .ok (), .ok (), .ok (), .ok ("All set!"),
   fun r => .ok r, .ok ()⟩

/-- A state whose call has an unresolved (null) pending entry. -/
def stPendingNull : PhoneState :=
  ⟨[(("CA1"), ⟨1, 0⟩)], [(("CA1"), (none : Option String))]⟩

/-- A state whose call has a resolved pending entry. -/
def stPendingReady : PhoneState :=
  ⟨[(("CA1"), ⟨2, 0⟩)], [(("CA1"), some ("hi"))]⟩

/-- A state with one stale and one fresh session, each with a pending
entry. -/
def stSweepW : PhoneState :=
  ⟨[(("OLD"), ⟨3, 0⟩), (("NEW"), ⟨1, 9000000⟩)],
   [(("OLD"), some ("x")), (("NEW"), some ("y"))]⟩

-- ============================================================
-- Helper lemmas: maps, pipeline, sweep
-- ============================================================

theorem mapGet_set_self {α : Type} (m : List (String × α)) (k : String) (v : α) :
    mapGet (mapSet m k v) k = some v := by
  induction m with
  | nil => simp [mapSet, mapGet]
  | cons e rest ih =>
      obtain ⟨k0, v0⟩ := e
      by_cases h : k0 = k
      · simp [mapSet, mapGet, h]
      · simp [mapSet, mapGet, h, ih]

theorem mapGet_set_ne {α : Type} (m : List (String × α)) (k k2 : String) (v : α)
    (h : k ≠ k2) : mapGet (mapSet m k v) k2 = mapGet m k2 := by
  induction m with
  | nil => simp [mapSet, mapGet, h]
  | cons e rest ih =>
      obtain ⟨k0, v0⟩ := e
      by_cases h0 : k0 = k
      · subst h0
        simp [mapSet, mapGet, h]
      · simp only [mapSet, if_neg h0, mapGet]
        by_cases h2 : k0 = k2
        · simp [h2]
        · simp [h2, ih]

theorem mapGet_delete_self {α : Type} (m : List (String × α)) (k : String) :
    mapGet (mapDelete m k) k = none := by
  induction m with
  | nil => simp [mapDelete, mapGet]
  | cons e rest ih =>
      obtain ⟨k0, v0⟩ := e
      by_cases h : k0 = k
      · simp [mapDelete, h, ih]
      · simp [mapDelete, mapGet, h, ih]

theorem mapGet_delete_ne {α : Type} (m : List (String × α)) (k k2 : String)
    (h : k2 ≠ k) : mapGet (mapDelete m k) k2 = mapGet m k2 := by
  induction m with
  | nil => simp [mapDelete, mapGet]
  | cons e rest ih =>
      obtain ⟨k0, v0⟩ := e
      by_cases h0 : k0 = k
      · subst h0
        simp [mapDelete, mapGet, Ne.symm h, ih]
      · simp only [mapDelete, if_neg h0, mapGet]
        by_cases h2 : k0 = k2
        · simp [h2]
        · simp [h2, ih]


theorem processRecordingAsync_ok (env : PipelineEnv) (callSid : String)
    (pending : PendingMap) (p : PendingMap)
    (h : processRecordingAsync env callSid pending = .ok p) :
    ∃ r, p = mapSet pending callSid (some r) := by
  unfold processRecordingAsync at h
  repeat' split at h
  all_goals first
    | exact Except.noConfusion h
    | (injection h with h; exact ⟨_, h.symm⟩)

theorem runPipelineTask_publishes (env : PipelineEnv) (callSid : String)
    (pending : PendingMap) :
    ∃ r, mapGet (runPipelineTask env callSid pending) callSid = some (some r) := by
  unfold runPipelineTask
  cases h : processRecordingAsync env callSid pending with
  | error e => exact ⟨hiccupMsg, mapGet_set_self _ _ _⟩
  | ok p =>
      obtain ⟨r, hr⟩ := processRecordingAsync_ok env callSid pending p h
      subst hr
      exact ⟨r, mapGet_set_self _ _ _⟩

theorem sweepLoop_sessions_get (now : Nat) (entries : List (String × CallSession))
    (s : PhoneState) (sid : String) :
    mapGet (sweepLoop now entries s).callSessions sid =
      if entries.any (fun e => e.1 == sid && staleB now e.2) then none
      else mapGet s.callSessions sid := by
  induction entries generalizing s with
  | nil => simp [sweepLoop]
  | cons e rest ih =>
      obtain ⟨sid0, ses0⟩ := e
      by_cases hs : staleB now ses0
      · rw [show sweepLoop now ((sid0, ses0) :: rest) s =
            sweepLoop now rest
              ⟨mapDelete s.callSessions sid0, mapDelete s.pendingResponses sid0⟩ by
          simp [sweepLoop, hs]]
        rw [ih]
        by_cases he : sid0 = sid
        · subst he
          simp only [List.any_cons, hs, Bool.and_true, beq_self_eq_true, Bool.true_or,
            if_true]
          split <;> simp [mapGet_delete_self]
        · have hb : (sid0 == sid) = false := by simp [he]
          simp only [List.any_cons, hb, Bool.false_and, Bool.false_or]
          split <;> simp [mapGet_delete_ne _ _ _ (Ne.symm he)]
      · rw [show sweepLoop now ((sid0, ses0) :: rest) s = sweepLoop now rest s by
          simp [sweepLoop, hs]]
        rw [ih]
        have hb : staleB now ses0 = false := by simpa using hs
        rw [List.any_cons, hb, Bool.and_false, Bool.false_or]

theorem sweepLoop_pending_get (now : Nat) (entries : List (String × CallSession))
    (s : PhoneState) (sid : String) :
    mapGet (sweepLoop now entries s).pendingResponses sid =
      if entries.any (fun e => e.1 == sid && staleB now e.2) then none
      else mapGet s.pendingResponses sid := by
  induction entries generalizing s with
  | nil => simp [sweepLoop]
  | cons e rest ih =>
      obtain ⟨sid0, ses0⟩ := e
      by_cases hs : staleB now ses0
      · rw [show sweepLoop now ((sid0, ses0) :: rest) s =
            sweepLoop now rest
              ⟨mapDelete s.callSessions sid0, mapDelete s.pendingResponses sid0⟩ by
          simp [sweepLoop, hs]]
        rw [ih]
        by_cases he : sid0 = sid
        · subst he
          simp only [List.any_cons, hs, Bool.and_true, beq_self_eq_true, Bool.true_or,
            if_true]
          split <;> simp [mapGet_delete_self]
        · have hb : (sid0 == sid) = false := by simp [he]
          simp only [List.any_cons, hb, Bool.false_and, Bool.false_or]
          split <;> simp [mapGet_delete_ne _ _ _ (Ne.symm he)]
      · rw [show sweepLoop now ((sid0, ses0) :: rest) s = sweepLoop now rest s by
          simp [sweepLoop, hs]]
        rw [ih]
        have hb : staleB now ses0 = false := by simpa using hs
        rw [List.any_cons, hb, Bool.and_false, Bool.false_or]

theorem any_stale_not_mem (now : Nat) (sid : String)
    (entries : List (String × CallSession))
    (h : sid ∉ entries.map Prod.fst) :
    entries.any (fun e => e.1 == sid && staleB now e.2) = false := by
  induction entries with
  | nil => rfl
  | cons e rest ih =>
      obtain ⟨k0, v0⟩ := e
      simp only [List.map_cons, List.mem_cons, not_or] at h
      obtain ⟨h1, h2⟩ := h
      have hb : (k0 == sid) = false := by
        simp
        intro hk
        exact h1 hk.symm
      simp [List.any_cons, hb, ih h2]

theorem any_stale_eq_get (now : Nat) (sid : String)
    (entries : List (String × CallSession))
    (hnd : (entries.map Prod.fst).Nodup) :
    entries.any (fun e => e.1 == sid && staleB now e.2) =
      (match mapGet entries sid with
       | some ses => staleB now ses
       | none => false) := by
  induction entries with
  | nil => rfl
  | cons e rest ih =>
      obtain ⟨k0, v0⟩ := e
      rw [List.map_cons, List.nodup_cons] at hnd
      obtain ⟨hk, hnd2⟩ := hnd
      by_cases he : k0 = sid
      · subst he
        rw [show mapGet ((k0, v0) :: rest) k0 = some v0 by simp [mapGet]]
        simp only [List.any_cons, beq_self_eq_true, Bool.true_and]
        rw [any_stale_not_mem now k0 rest hk]
        simp
      · have hb : (k0 == sid) = false := by simp [he]
        rw [show mapGet ((k0, v0) :: rest) sid = mapGet rest sid by simp [mapGet, he]]
        simp only [List.any_cons, hb, Bool.false_and, Bool.false_or]
        exact ih hnd2

-- ============================================================
-- The claims
-- ============================================================

/-- C1 (counterexample): a recording-ready event for a call id whose
pending entry is still unresolved (null) is nevertheless accepted —
handleRecordingResponse launches a fresh pipeline run (a nonempty spawn
list) instead of rejecting the event. -/
theorem claim_C1_counterexample :
    mapGet stPendingNull.pendingResponses ("CA1") = some none ∧
    (handleRecordingResponse cfgW stPendingNull ("CA1") ("http://rec") ("RE1") 5).spawns
      = [⟨("CA1"), ("http://rec"), ("RE1")⟩] := by
  exact ⟨rfl, by decide⟩

/-- C1 (amended): handleRecordingResponse accepts every recording-ready
event with a nonempty recording URL unconditionally: regardless of any
unresolved pending entry for the call id, it overwrites the entry with a
fresh null, launches exactly one new pipeline run, and returns the
thinking-and-poll markup (last writer wins; no rejection or queueing). -/
theorem claim_C1 : ∀ (cfg : Config) (s : PhoneState)
    (callSid recordingUrl recordingSid : String) (now : Nat),
    recordingUrl ≠ "" →
    (handleRecordingResponse cfg s callSid recordingUrl recordingSid now).spawns
        = [⟨callSid, recordingUrl, recordingSid⟩] ∧
      mapGet (handleRecordingResponse cfg s callSid recordingUrl recordingSid
          now).state.pendingResponses callSid = some none ∧
      (handleRecordingResponse cfg s callSid recordingUrl recordingSid now).twiml
        = thinkingAndPoll cfg callSid := by
  intro cfg s sid url rsid now h
  unfold handleRecordingResponse
  rw [if_neg h]
  exact ⟨rfl, mapGet_set_self _ _ _, rfl⟩

/-- C1 (witness): the amended claim at a concrete input. -/
theorem claim_C1_witness :
    (("http://rec") : String) ≠ "" ∧
    ((handleRecordingResponse cfgW stPendingNull ("CA1") ("http://rec") ("RE1") 5).spawns
        = [⟨("CA1"), ("http://rec"), ("RE1")⟩] ∧
      mapGet (handleRecordingResponse cfgW stPendingNull ("CA1") ("http://rec") ("RE1")
          5).state.pendingResponses ("CA1") = some none ∧
      (handleRecordingResponse cfgW stPendingNull ("CA1") ("http://rec") ("RE1") 5).twiml
        = thinkingAndPoll cfgW ("CA1")) :=
  ⟨by decide, claim_C1 cfgW stPendingNull ("CA1") ("http://rec") ("RE1") 5 (by decide)⟩

/-- C2: every execution of the background pipeline together with the
.catch handler at its spawn site ends with a string stored in the
pendingResponses entry for the call id — on recording-fetch failure,
empty transcription, goodbye match, normal completion, and any thrown
exception alike; the entry is never left holding the null sentinel. -/
theorem claim_C2 : ∀ (env : PipelineEnv) (callSid : String) (pending : PendingMap),
    ∃ r, mapGet (runPipelineTask env callSid pending) callSid = some (some r) := by
  intro env sid p
  exact runPipelineTask_publishes env sid p

/-- C3: consuming a ready pending result is exactly-once — handlePoll on
a resolved entry removes it and returns the final markup, and a second
handlePoll for the same call id finds no entry and returns the
pause-plus-redirect wait markup, never the final payload again. -/
theorem claim_C3 : ∀ (cfg : Config) (pending : PendingMap) (callSid response : String),
    mapGet pending callSid = some (some response) →
    mapGet (handlePoll cfg pending callSid).pending callSid = none ∧
    handlePoll cfg (handlePoll cfg pending callSid).pending callSid
      = ⟨(handlePoll cfg pending callSid).pending, pollWaitTwiml cfg callSid⟩ ∧
    (handlePoll cfg pending callSid).twiml
      = (if response.startsWith goodbyeTag
         then sayAndHangup (response.drop (String.length goodbyeTag))
         else sayAndRecord response (cfg.baseUrl ++ "/voice/respond")) := by
  intro cfg pending sid r h
  by_cases hg : r.startsWith goodbyeTag
  · have h1 : handlePoll cfg pending sid
        = ⟨mapDelete pending sid, sayAndHangup (r.drop (String.length goodbyeTag))⟩ := by
      unfold handlePoll
      rw [h]
      simp [hg]
    rw [h1, if_pos hg]
    refine ⟨mapGet_delete_self _ _, ?_, rfl⟩
    show handlePoll cfg (mapDelete pending sid) sid
      = ⟨mapDelete pending sid, pollWaitTwiml cfg sid⟩
    unfold handlePoll
    rw [mapGet_delete_self]
  · have h1 : handlePoll cfg pending sid
        = ⟨mapDelete pending sid, sayAndRecord r (cfg.baseUrl ++ "/voice/respond")⟩ := by
      unfold handlePoll
      rw [h]
      simp [hg]
    rw [h1, if_neg hg]
    refine ⟨mapGet_delete_self _ _, ?_, rfl⟩
    show handlePoll cfg (mapDelete pending sid) sid
      = ⟨mapDelete pending sid, pollWaitTwiml cfg sid⟩
    unfold handlePoll
    rw [mapGet_delete_self]

/-- C3 (witness): the theorem at a concrete ready entry. -/
theorem claim_C3_witness :
    mapGet stPendingReady.pendingResponses ("CA1") = some (some ("hi")) ∧
    (mapGet (handlePoll cfgW stPendingReady.pendingResponses ("CA1")).pending ("CA1") = none ∧
     handlePoll cfgW (handlePoll cfgW stPendingReady.pendingResponses ("CA1")).pending ("CA1")
       = ⟨(handlePoll cfgW stPendingReady.pendingResponses ("CA1")).pending,
          pollWaitTwiml cfgW ("CA1")⟩ ∧
     (handlePoll cfgW stPendingReady.pendingResponses ("CA1")).twiml
       = (if (("hi") : String).startsWith goodbyeTag
          then sayAndHangup ((("hi") : String).drop (String.length goodbyeTag))
          else sayAndRecord ("hi") (cfgW.baseUrl ++ "/voice/respond"))) :=
  ⟨rfl, claim_C3 cfgW stPendingReady.pendingResponses ("CA1") ("hi") rfl⟩

/-- C4: end-of-call intent detection is a case-insensitive whole-word
match against the closed phrase set — the transcriptions Bye! and
I need to hang up now match, while goodbyes are hard does not
(word-boundary, not substring, semantics). -/
theorem claim_C4 :
    goodbyeIntent ("Bye!") = true ∧
    goodbyeIntent ("I need to hang up now") = true ∧
    goodbyeIntent ("goodbyes are hard") = false := by
  decide

/-- C5: a call-start event from an address failing the allow-list check
returns hangup markup containing the rejection message and leaves the
state (both maps) unchanged. -/
theorem claim_C5 : ∀ (cfg : Config) (s : PhoneState) (callSid fromAddr : String)
    (now : Nat),
    cfg.userPhoneNumber ≠ "" → fromAddr ≠ cfg.userPhoneNumber →
    handleInbound cfg s callSid fromAddr now = (s, sayAndHangup privateMsg) ∧
    (handleInbound cfg s callSid fromAddr now).2
      = sayOpen ++ privateMsg ++ sayHangupSuf := by
  intro cfg s sid fa now h1 h2
  have he : handleInbound cfg s sid fa now = (s, sayAndHangup privateMsg) := by
    unfold handleInbound
    rw [if_pos ⟨h1, h2⟩]
  refine ⟨he, ?_⟩
  rw [he]
  show sayAndHangup privateMsg = _
  have hesc : escapeXml privateMsg = privateMsg := by decide
  unfold sayAndHangup
  rw [hesc]

/-- C5 (witness): the theorem at a concrete unauthorized caller. -/
theorem claim_C5_witness :
    cfgW.userPhoneNumber ≠ "" ∧ (("+15550001111") : String) ≠ cfgW.userPhoneNumber ∧
    (handleInbound cfgW stEmpty ("CA1") ("+15550001111") 3
        = (stEmpty, sayAndHangup privateMsg) ∧
     (handleInbound cfgW stEmpty ("CA1") ("+15550001111") 3).2
        = sayOpen ++ privateMsg ++ sayHangupSuf) :=
  ⟨by decide, by decide,
   claim_C5 cfgW stEmpty ("CA1") ("+15550001111") 3 (by decide) (by decide)⟩

/-- C6 (counterexample): on a terminal status-callback event the handler
does not delete the pending-result entry for the call id — a stray
resolved entry survives handleStatus with status completed, contrary to
the claim that it is defensively removed. -/
theorem claim_C6_counterexample :
    mapGet stPendingReady.pendingResponses ("CA1") = some (some ("hi")) ∧
    mapGet (handleStatus stPendingReady ("CA1") ("completed")).1.pendingResponses ("CA1")
      = some (some ("hi")) := by
  decide

/-- C6 (amended): on completed, failed or no-answer, handleStatus
deletes the Call Session only — the pendingResponses map is never
modified by the status handler; every other status changes neither map;
in all cases it returns the trivial OK acknowledgement. -/
theorem claim_C6 : ∀ (s : PhoneState) (callSid status : String),
    (handleStatus s callSid status).2 = "OK" ∧
    (handleStatus s callSid status).1.pendingResponses = s.pendingResponses ∧
    (handleStatus s callSid status).1.callSessions
      = (if status = "completed" ∨ status = "failed" ∨ status = "no-answer"
         then mapDelete s.callSessions callSid else s.callSessions) := by
  intro s sid st
  by_cases h : st = "completed" ∨ st = "failed" ∨ st = "no-answer"
  · refine ⟨?_, ?_, ?_⟩ <;> simp [handleStatus, h]
  · refine ⟨?_, ?_, ?_⟩ <;> simp [handleStatus, h]

/-- C7 (counterexample): a pipeline task finishing after its call was
torn down (no pendingResponses entry left) is not a harmless no-op —
the late set re-creates the entry, so afterwards the map does hold a
resolved entry for the call id. -/
theorem claim_C7_counterexample :
    mapGet ([] : PendingMap) ("CA1") = none ∧
    mapGet (runPipelineTask envNormal ("CA1") ([] : PendingMap)) ("CA1")
      = some (some ("All set!")) ∧
    mapGet (runPipelineTask envNormal ("CA1") ([] : PendingMap)) ("CA1") ≠ none := by
  exact ⟨rfl, by decide, by decide⟩

/-- C7 (amended): when the owning call was torn down while the pipeline
task was still running, the late write of the task re-creates the
pendingResponses entry: after the run, the registry holds a resolved
string for the call id (the write is an insertion, not a no-op). -/
theorem claim_C7 : ∀ (env : PipelineEnv) (callSid : String) (pending : PendingMap),
    mapGet pending callSid = none →
    ∃ r, mapGet (runPipelineTask env callSid pending) callSid = some (some r) := by
  intro env sid p _h
  exact runPipelineTask_publishes env sid p

/-- C7 (witness): the amended claim at a concrete torn-down state. -/
theorem claim_C7_witness :
    mapGet ([] : PendingMap) ("CA9") = none ∧
    ∃ r, mapGet (runPipelineTask envNormal ("CA9") ([] : PendingMap)) ("CA9")
      = some (some r) :=
  ⟨rfl, claim_C7 envNormal ("CA9") [] rfl⟩

/-- C8: one run of the sweep removes exactly the sessions whose
last-activity timestamp is older than the 30-minute TTL, together with
their pending-result entries, leaving every fresher session and its
pending entry untouched; a poll for an evicted call id then returns the
wait markup as if no session ever existed. -/
theorem claim_C8 : ∀ (cfg : Config) (now : Nat) (s : PhoneState) (sid : String),
    (s.callSessions.map Prod.fst).Nodup →
    (mapGet (sweep now s).callSessions sid
        = (if isStale now s sid then none else mapGet s.callSessions sid) ∧
     mapGet (sweep now s).pendingResponses sid
        = (if isStale now s sid then none else mapGet s.pendingResponses sid) ∧
     (isStale now s sid = true →
       handlePoll cfg (sweep now s).pendingResponses sid
         = ⟨(sweep now s).pendingResponses, pollWaitTwiml cfg sid⟩)) := by
  intro cfg now s sid hnd
  have hany := any_stale_eq_get now sid s.callSessions hnd
  have hs : mapGet (sweep now s).callSessions sid
      = (if isStale now s sid then none else mapGet s.callSessions sid) := by
    unfold sweep
    rw [sweepLoop_sessions_get, hany]
    unfold isStale
    rfl
  have hp : mapGet (sweep now s).pendingResponses sid
      = (if isStale now s sid then none else mapGet s.pendingResponses sid) := by
    unfold sweep
    rw [sweepLoop_pending_get, hany]
    unfold isStale
    rfl
  refine ⟨hs, hp, ?_⟩
  intro hst
  have hnone : mapGet (sweep now s).pendingResponses sid = none := by
    rw [hp, if_pos hst]
  unfold handlePoll
  rw [hnone]

/-- C8 (witness): the theorem at a state with one stale and one fresh
session, queried at the stale id. -/
theorem claim_C8_witness :
    (stSweepW.callSessions.map Prod.fst).Nodup ∧
    (mapGet (sweep 10000000 stSweepW).callSessions ("OLD")
        = (if isStale 10000000 stSweepW ("OLD") then none
           else mapGet stSweepW.callSessions ("OLD")) ∧
     mapGet (sweep 10000000 stSweepW).pendingResponses ("OLD")
        = (if isStale 10000000 stSweepW ("OLD") then none
           else mapGet stSweepW.pendingResponses ("OLD")) ∧
     (isStale 10000000 stSweepW ("OLD") = true →
       handlePoll cfgW (sweep 10000000 stSweepW).pendingResponses ("OLD")
         = ⟨(sweep 10000000 stSweepW).pendingResponses, pollWaitTwiml cfgW ("OLD")⟩)) :=
  ⟨by decide, claim_C8 cfgW 10000000 stSweepW ("OLD") (by decide)⟩

/-- C9: handlePoll is total — for a call id whose pendingResponses
lookup yields no entry or the null sentinel it returns the short Pause
followed by a Redirect back to the poll route carrying the
URI-component-encoded call id, and leaves the map unchanged. -/
theorem claim_C9 : ∀ (cfg : Config) (pending : PendingMap) (callSid : String),
    (mapGet pending callSid = none ∨ mapGet pending callSid = some none) →
    handlePoll cfg pending callSid
      = ⟨pending, pollWaitPre cfg ++ encodeURIComponent callSid ++ pollWaitSuf⟩ := by
  intro cfg p sid h
  rcases h with h | h
  · unfold handlePoll
    rw [h]
    rfl
  · unfold handlePoll
    rw [h]
    rfl

/-- C9 (witness): the theorem at an id with no entry and no session. -/
theorem claim_C9_witness :
    (mapGet ([] : PendingMap) ("CA1") = none ∨
     mapGet ([] : PendingMap) ("CA1") = some none) ∧
    handlePoll cfgW ([] : PendingMap) ("CA1")
      = ⟨([] : PendingMap), pollWaitPre cfgW ++ encodeURIComponent ("CA1") ++ pollWaitSuf⟩ :=
  ⟨Or.inl rfl, claim_C9 cfgW [] ("CA1") (Or.inl rfl)⟩

/-- C10: with no allow-listed caller address configured (empty string),
handleInbound skips the authorization check and accepts every caller:
it creates the session (turns 0, current activity) and returns the
greeting markup, never the rejection hangup. -/
theorem claim_C10 : ∀ (cfg : Config) (s : PhoneState) (callSid fromAddr : String)
    (now : Nat),
    cfg.userPhoneNumber = "" →
    handleInbound cfg s callSid fromAddr now
      = ({ s with callSessions := mapSet s.callSessions callSid ⟨0, now⟩ },
         greeting (cfg.baseUrl ++ "/voice/respond")) := by
  intro cfg s sid fa now h
  unfold handleInbound
  rw [if_neg (fun hc => hc.1 h)]

/-- C10 (witness): the theorem at a concrete arbitrary caller. -/
theorem claim_C10_witness :
    cfgOpen.userPhoneNumber = "" ∧
    handleInbound cfgOpen stEmpty ("CA1") ("+15559998888") 7
      = ({ stEmpty with callSessions := mapSet stEmpty.callSessions ("CA1") ⟨0, 7⟩ },
         greeting (cfgOpen.baseUrl ++ "/voice/respond")) :=
  ⟨rfl, claim_C10 cfgOpen stEmpty ("CA1") ("+15559998888") 7 rfl⟩

end PhoneSvc
